import Mathlib

/-!
Verification of the ADQL query-building logic of the ESO
"How to query for reduced data" notebook.

The notebook builds ADQL query strings by Python string interpolation and
sends them to a remote TAP service.  The definitions below embed those
query constructions: each `def` reproduces, character for character, the
string built by the corresponding notebook cell, with the interpolated
parts (identifier, coordinates, polygon vertices, extra filters) made
explicit parameters exactly where the cell interpolates or inlines them.
-/

/-- Query of cell-5: identifier lookup built by Python
`"""SELECT *\nFROM ivoa.ObsCore\nWHERE dp_id = '%s'""" % (dp_id)`. -/
def byIdentifier (dp_id : String) : String :=
  "SELECT *\nFROM ivoa.ObsCore\nWHERE dp_id = '" ++ dp_id ++ "'"

/-- Commented-out alternative of cell-5: the same lookup through the VO
identifier, `ivorn = 'ivo://eso.org/ID?' + dp_id` interpolated into
`WHERE obs_publisher_did = '%s'`. -/
def byPublisherDid (dp_id : String) : String :=
  "SELECT *\nFROM ivoa.ObsCore\nWHERE obs_publisher_did = '" ++
    ("ivo://eso.org/ID?" ++ dp_id) ++ "'"

/-- Nearest integer to `x * 10^6`, ties going to the even integer.  This
is the rounding CPython applies to the exact value when rendering a float
with the fixed-point `%f` conversion (six fractional digits).  Computed on
the numerator and denominator with floor division, so that it reduces by
pure integer arithmetic. -/
def rhe6 (x : ℚ) : ℤ :=
  let a := x.num * 1000000
  let b := (x.den : ℤ)
  let q := Int.fdiv a b
  let r := a - q * b
  if 2 * r < b then q
  else if b < 2 * r then q + 1
  else if q % 2 = 0 then q else q + 1

/-- Left-pad the decimal digits of `m` with zeros to width 6. -/
def pad6 (m : Nat) : String :=
  let s := Nat.repr m
  String.mk (List.replicate (6 - s.length) '0') ++ s

/-- Model of Python's `"%f" % x` conversion (cell-17): fixed-point
rendering with exactly six fractional digits.  The binary double passed
by the notebook is abstracted to the exact rational value it denotes;
the decimal expansion is rounded at the sixth fractional digit. -/
def fmt6 (x : ℚ) : String :=
  let n := rhe6 x
  let sgn := if x.num < 0 then "-" else ""
  sgn ++ Nat.repr (n.natAbs / 1000000) ++ "." ++ pad6 (n.natAbs % 1000000)

/-- Query of cell-17: cone search built by Python
`"""SELECT *\nFROM ivoa.ObsCore\nWHERE intersects(s_region, circle('', %f, %f, %f))=1\n""" % (ra, dec, sr)`. -/
def coneSearch (ra dec sr : ℚ) : String :=
  "SELECT *\nFROM ivoa.ObsCore\nWHERE intersects(s_region, circle('', " ++
    fmt6 ra ++ ", " ++ fmt6 dec ++ ", " ++ fmt6 sr ++ "))=1\n"

/-- Join of extra column predicates, each on its own `AND` line, the way
cell-23 and cell-26 append `AND dataproduct_type in ('image', 'cube')`
after the spatial constraint. -/
def joinFilters (filters : List String) : String :=
  String.join (filters.map (fun f => "\nAND " ++ f))

/-- Tagged spatial shape, used only to render the corresponding ADQL
geometric literal (spec section 3); the three renderings reproduce the
literals of cell-23 (`point`), cell-26 (`CIRCLE`) and the commented
polygon of cell-26 / cell-29 (`POLYGON`). -/
inductive SpatialShape where
  | point (ra dec : String)
  | circle (ra dec radius : String)
  | polygon (frame : String) (vertices : List (String × String))

/-- Vertex list rendering of the commented `POLYGON` of cell-26: every
coordinate separated by a comma and a space. -/
def polyCoords : List (String × String) → String
  | [] => ""
  | [v] => v.1 ++ ", " ++ v.2
  | v :: rest => v.1 ++ ", " ++ v.2 ++ ", " ++ polyCoords rest

/-- Vertex list rendering of the `POLYGON` of cell-29: `ra,dec` pairs
(comma, no space, inside a pair) joined by a comma and a space. -/
def polyBody : List (String × String) → String
  | [] => ""
  | [v] => v.1 ++ "," ++ v.2
  | v :: rest => v.1 ++ "," ++ v.2 ++ ", " ++ polyBody rest

/-- ADQL literal of a spatial shape, exactly as spelled in the notebook
cells (lower-case `point`, upper-case `CIRCLE` / `POLYGON`, an empty
coordinate-system tag for point and circle). -/
def renderShape : SpatialShape → String
  | SpatialShape.point ra dec => "point('', " ++ ra ++ ", " ++ dec ++ ")"
  | SpatialShape.circle ra dec radius =>
      "CIRCLE('', " ++ ra ++ ", " ++ dec ++ ", " ++ radius ++ ")"
  | SpatialShape.polygon frame vertices =>
      "POLYGON('" ++ frame ++ "', " ++ polyCoords vertices ++ ")"

/-- Query of cell-23: point-in-footprint search.  The cell inlines the
coordinates of SN2016x and one `dataproduct_type` filter; here they are
the parameters. -/
def containsPoint (ra dec : String) (filters : List String) : String :=
  "SELECT t_min, abmaglim, dataproduct_type as type, dp_id, obs_release_date\nFROM ivoa.ObsCore\nWHERE CONTAINS(" ++
    renderShape (SpatialShape.point ra dec) ++ ", s_region)=1" ++
    joinFilters filters ++ "\nORDER BY t_min asc"

/-- Query of cell-26: region-in-footprint search.  The cell inlines a
circle around NGC 253 (a commented line shows the polygon variant) and
one `dataproduct_type` filter; here the shape and the filters are the
parameters. -/
def containsRegion (shape : SpatialShape) (filters : List String) : String :=
  "SELECT t_min, s_fov, dataproduct_type as type, dp_id, obs_release_date\nFROM ivoa.ObsCore\nWHERE CONTAINS(" ++
    renderShape shape ++ ", s_region)=1" ++
    joinFilters filters ++ "\nORDER BY t_min asc"

/-- Query of cell-29: polygon intersection search.  The cell inlines the
GW170817 contour with frame tag `J2000`; here the frame tag and the
vertex list are the parameters. -/
def intersectsPolygon (frame : String) (vertices : List (String × String)) : String :=
  "SELECT t_min, snr, abmaglim, dataproduct_type as type, dp_id\nFROM ivoa.ObsCore\nWHERE INTERSECTS(s_region, POLYGON('" ++
    frame ++ "', " ++ polyBody vertices ++ "))=1\nORDER BY t_min asc"

/-- Query of cell-31, verbatim: spatial join of HAWKI J-band and H-band
source tables, with the spectral-bound constraints on `em_min` and
`em_max` written in meters (J band 1.265E-6 m, H band 1.66E-6 m). -/
def spatialJoinQuery : String :=
  "SELECT J.* FROM\n      (select * FROM ivoa.Obscore WHERE dataproduct_subtype ='srctbl' \n      AND obs_collection = 'HAWKI' \n      AND gal_lat < 10 AND gal_lat > -10 \n      AND em_min < 1.265E-6 AND em_max > 1.265E-6 ) J, \n\n      (select * FROM ivoa.Obscore WHERE dataproduct_subtype ='srctbl' \n      AND obs_collection = 'HAWKI' \n      AND gal_lat < 10 AND gal_lat > -10 \n      AND em_min < 1.66E-6 AND em_max > 1.66E-6 ) H \n\nWHERE INTERSECTS( J.s_region , H.s_region)=1 and \nESO_INTERSECTION( J.s_region , H.s_region) > 0.8*AREA( J.s_region )"

/-- Query of cell-34, verbatim: wavelength query that rescales `em_min`
and `em_max` to nanometers (`*1E9`) in the SELECT list only, while the
WHERE part constrains `target_name` and `em_res_power`. -/
def wavelengthQuery : String :=
  "SELECT obs_collection as collection, dataproduct_type as type, \ndataproduct_subtype as subtype, em_min*1E9 min_wavel_nm, em_max*1E9 max_wavel_nm, em_res_power\nFROM ivoa.ObsCore\nWHERE target_name = 'a370'\nand em_res_power < 3000"

/-- Outcome produced by the remote TAP service for one submitted query. -/
inductive RemoteOutcome (Row : Type) where
  | success (rows : List Row)
  | syntaxError (message : String)
  | transportFailure (message : String)

/-- Outcome surfaced to the caller of the client. -/
inductive SearchOutcome (Row : Type) where
  | resultTable (rows : List Row)
  | querySyntaxError (message : String)
  | transportError (message : String)

/-- Modelled from the spec: the behavior of the pyvo-backed
`tapobs.search` call used by cell-18 and the other query cells is not in
this repository; per spec sections 4.1 and 7 the client is a thin
pass-through that performs no retry logic.  The returned `Nat` counts
the requests issued to the remote service for the one call; a zero-row
success is returned as a valid empty result table, and each error is
surfaced to the caller as the corresponding typed outcome. -/
def tapSearch {Row : Type} (outcome : RemoteOutcome Row) : Nat × SearchOutcome Row :=
  match outcome with
  | RemoteOutcome.success rows => (1, SearchOutcome.resultTable rows)
  | RemoteOutcome.syntaxError m => (1, SearchOutcome.querySyntaxError m)
  | RemoteOutcome.transportFailure m => (1, SearchOutcome.transportError m)

/-- The two columns of an `ivoa.ObsCore` row that the identifier queries
of cell-5 constrain.  Cell-4 documents the invariant relating them: the
VO identifier is the constant prefix `ivo://eso.org/ID?` prepended to
the ESO identifier. -/
structure ObsCoreRow where
  dp_id : String
  obs_publisher_did : String

/-- Modelled from the spec: remote evaluation of the cell-5 query
`WHERE dp_id = '<id>'` over a table of rows — the remote database is
outside this repository, so the `WHERE` equality filter is modelled as a
list filter. -/
def runByIdentifier (rows : List ObsCoreRow) (id : String) : List ObsCoreRow :=
  rows.filter (fun r => r.dp_id == id)

/-- Modelled from the spec: remote evaluation of the commented cell-5
query `WHERE obs_publisher_did = 'ivo://eso.org/ID?<id>'` over a table
of rows. -/
def runByPublisherDid (rows : List ObsCoreRow) (id : String) : List ObsCoreRow :=
  rows.filter (fun r => r.obs_publisher_did == "ivo://eso.org/ID?" ++ id)

/-- Characters of any quoted literal are elided, so that keyword
occurrences can be counted outside string literals; the flag tells
whether the scan position is inside a quoted literal. -/
def stripQuoted : List Char → Bool → List Char
  | [], _ => []
  | c :: rest, inQ =>
    if c = '\'' then stripQuoted rest (!inQ)
    else if inQ then stripQuoted rest true
    else c :: stripQuoted rest false

/-- Number of positions at which `pat` occurs as a contiguous substring. -/
def countOcc (pat : List Char) : List Char → Nat
  | [] => 0
  | c :: rest =>
    (if pat = List.take pat.length (c :: rest) then 1 else 0) + countOcc pat rest

/-- Occurrence of `pat` as a contiguous substring of `l`. -/
def Occurs (pat l : List Char) : Prop := ∃ x y, l = x ++ pat ++ y

/-- Boolean substring test. -/
def occursIn (pat : List Char) : List Char → Bool
  | [] => decide (pat = [])
  | c :: rest => decide (pat = List.take pat.length (c :: rest)) || occursIn pat rest

/-- The `WHERE` keyword. -/
def whereTok : List Char := ['W', 'H', 'E', 'R', 'E']

/-- Suffix of the input just after the first occurrence of `pat`, if
`pat` occurs at all. -/
def dropAfter (pat : List Char) : List Char → Option (List Char)
  | [] => none
  | c :: rest =>
    if pat = List.take pat.length (c :: rest) then some (List.drop pat.length (c :: rest))
    else dropAfter pat rest

/-- Splits a function-argument list at the first comma that sits at
parenthesis depth zero, returning the first argument and the rest. -/
def splitArg : List Char → Nat → Option (List Char × List Char)
  | [], _ => none
  | c :: rest, d =>
    if c = ',' ∧ d = 0 then some ([], rest)
    else if c = '(' then (splitArg rest (d + 1)).map (fun p => (c :: p.1, p.2))
    else if c = ')' then
      if d = 0 then none
      else (splitArg rest (d - 1)).map (fun p => (c :: p.1, p.2))
    else (splitArg rest d).map (fun p => (c :: p.1, p.2))

/-- Reads one final function argument: all characters up to the closing
parenthesis at depth zero; a depth-zero comma means the argument is not
the last one and yields `none`. -/
def takeArg : List Char → Nat → Option (List Char)
  | [], _ => none
  | c :: rest, d =>
    if c = ')' ∧ d = 0 then some []
    else if c = '(' then (takeArg rest (d + 1)).map (fun l => c :: l)
    else if c = ')' then (takeArg rest (d - 1)).map (fun l => c :: l)
    else if c = ',' ∧ d = 0 then none
    else (takeArg rest d).map (fun l => c :: l)

/-- Drops leading spaces. -/
def trimSp (l : List Char) : List Char := l.dropWhile (fun c => c = ' ')

/-- Splits at every comma. -/
def splitCommas : List Char → List (List Char)
  | [] => [[]]
  | c :: rest =>
    if c = ',' then [] :: splitCommas rest
    else
      match splitCommas rest with
      | [] => [[c]]
      | f :: fs => (c :: f) :: fs

/-- The two operands of the first `CONTAINS(` call of a query: the first
argument (up to the depth-zero comma) and the second argument (up to the
closing parenthesis, leading spaces dropped). -/
def containsArgs (q : String) : Option (List Char × List Char) :=
  match dropAfter ("CONTAINS(".data) q.data with
  | none => none
  | some rest =>
    match splitArg rest 0 with
    | none => none
    | some (a1, rest2) =>
      match takeArg rest2 0 with
      | none => none
      | some a2 => some (a1, trimSp a2)

/-- The two operands of the first `INTERSECTS(` call of a query. -/
def intersectsArgs (q : String) : Option (List Char × List Char) :=
  match dropAfter ("INTERSECTS(".data) q.data with
  | none => none
  | some rest =>
    match splitArg rest 0 with
    | none => none
    | some (a1, rest2) =>
      match takeArg rest2 0 with
      | none => none
      | some a2 => some (a1, trimSp a2)

/-- Frame tag and comma-separated coordinate fields of a rendered
`POLYGON('<frame>', c1, c2, ...)` literal. -/
def polygonParts (l : List Char) : Option (List Char × List (List Char)) :=
  match dropAfter ("POLYGON('".data) l with
  | none => none
  | some rest =>
    let frame := rest.takeWhile (fun c => c ≠ '\'')
    match rest.dropWhile (fun c => c ≠ '\'') with
    | '\'' :: ',' :: ' ' :: rest2 =>
      match rest2.dropWhile (fun c => c ≠ ')') with
      | [')'] => some (frame, (splitCommas (rest2.takeWhile (fun c => c ≠ ')'))).map trimSp)
      | _ => none
    | _ => none

/-- Full parse of an `intersectsPolygon` query: first `INTERSECTS`
operand, then the frame tag and coordinate fields of the polygon literal
found in the second operand. -/
def intersectsPolyParse (q : String) : Option (List Char × List Char × List (List Char)) :=
  match intersectsArgs q with
  | none => none
  | some (a1, a2) =>
    match polygonParts a2 with
    | none => none
    | some (frame, coords) => some (a1, frame, coords)

/-- Digit test. -/
def isDigitCh (c : Char) : Bool := decide ('0' ≤ c) && decide (c ≤ '9')

/-- Numeric value of a digit character. -/
def digToNat (c : Char) : Nat := c.toNat - 48

/-- Value of a digit string. -/
def natOfDigits (l : List Char) : Nat := l.foldl (fun acc c => 10 * acc + digToNat c) 0

/-- Parses an unsigned decimal literal (`123` or `123.456`) into the
rational it denotes. -/
def parseUDec (l : List Char) : Option ℚ :=
  let ip := l.takeWhile isDigitCh
  let rest := l.dropWhile isDigitCh
  if ip = [] then none
  else
    match rest with
    | [] => some (mkRat (natOfDigits ip) 1)
    | '.' :: fp =>
      if fp ≠ [] ∧ fp.all isDigitCh then
        some (mkRat (natOfDigits ip * 10 ^ fp.length + natOfDigits fp) (10 ^ fp.length))
      else none
    | _ => none

/-- Parses an optionally signed decimal literal. -/
def parseDec (l : List Char) : Option ℚ :=
  match l with
  | '-' :: rest => (parseUDec rest).map (fun x => -x)
  | _ => parseUDec l

/-- The three numeric literals of the `circle('', ra, dec, radius)` term
of a cone-search query, parsed back into rationals. -/
def coneParams (q : String) : Option (ℚ × ℚ × ℚ) :=
  match dropAfter ("circle('', ".data) q.data with
  | none => none
  | some rest =>
    match (splitCommas (rest.takeWhile (fun c => c ≠ ')'))).map trimSp with
    | [a, b, c] =>
      match parseDec a, parseDec b, parseDec c with
      | some x, some y, some z => some (x, y, z)
      | _, _, _ => none
    | _ => none

/-- A character that cannot disturb the argument structure of a rendered
geometric literal: not a parenthesis and not a comma. -/
def plainChar (c : Char) : Prop := c ≠ '(' ∧ c ≠ ')' ∧ c ≠ ','

/-- A rendered coordinate: nonempty, and free of parentheses, commas,
spaces and quotes (the numerals inlined by the notebook are of this
form). -/
def numAtom (s : String) : Prop :=
  s.data ≠ [] ∧ ∀ c ∈ s.data, c ≠ '(' ∧ c ≠ ')' ∧ c ≠ ',' ∧ c ≠ ' ' ∧ c ≠ '\''

/-- A frame tag free of parentheses, commas and quotes, such as `J2000`. -/
def plainFrame (s : String) : Prop :=
  ∀ c ∈ s.data, c ≠ '(' ∧ c ≠ ')' ∧ c ≠ ',' ∧ c ≠ '\''

/-- Well-formed rendered coordinates of a shape. -/
def shapeAtoms : SpatialShape → Prop
  | SpatialShape.point ra dec => numAtom ra ∧ numAtom dec
  | SpatialShape.circle ra dec radius => numAtom ra ∧ numAtom dec ∧ numAtom radius
  | SpatialShape.polygon frame vertices =>
      plainFrame frame ∧ vertices ≠ [] ∧ ∀ v ∈ vertices, numAtom v.1 ∧ numAtom v.2

instance (c : Char) : Decidable (plainChar c) := by
  unfold plainChar
  infer_instance

instance (s : String) : Decidable (numAtom s) := by
  unfold numAtom
  infer_instance

instance (s : String) : Decidable (plainFrame s) := by
  unfold plainFrame
  infer_instance

instance (s : SpatialShape) : Decidable (shapeAtoms s) := by
  cases s <;> (unfold shapeAtoms; infer_instance)

/-- Fidelity check: instantiated at the coordinates and the filter that
cell-23 inlines, the parameterized builder reproduces the cell-23 query
character for character. -/
theorem containsPoint_cell23 :
    containsPoint "193.815" "0.099819" ["dataproduct_type in ('image', 'cube')"] =
      "SELECT t_min, abmaglim, dataproduct_type as type, dp_id, obs_release_date\nFROM ivoa.ObsCore\nWHERE CONTAINS(point('', 193.815, 0.099819), s_region)=1\nAND dataproduct_type in ('image', 'cube')\nORDER BY t_min asc" := rfl

/-- Fidelity check: instantiated at the circle and the filter that
cell-26 inlines, the parameterized builder reproduces the cell-26 query
character for character. -/
theorem containsRegion_cell26 :
    containsRegion (SpatialShape.circle "11.888002" "-25.288220" "0.21")
        ["dataproduct_type in ('image', 'cube')"] =
      "SELECT t_min, s_fov, dataproduct_type as type, dp_id, obs_release_date\nFROM ivoa.ObsCore\nWHERE CONTAINS(CIRCLE('', 11.888002, -25.288220, 0.21), s_region)=1\nAND dataproduct_type in ('image', 'cube')\nORDER BY t_min asc" := rfl

/-- Fidelity check: on the first two vertices of the cell-29 polygon the
builder reproduces the cell-29 template, including the `ra,dec` pair
rendering with a comma and no space inside a pair. -/
theorem intersectsPolygon_cell29_shape :
    intersectsPolygon "J2000" [("196.8311", "-23.5212"), ("196.7432", "-23.3586")] =
      "SELECT t_min, snr, abmaglim, dataproduct_type as type, dp_id\nFROM ivoa.ObsCore\nWHERE INTERSECTS(s_region, POLYGON('J2000', 196.8311,-23.5212, 196.7432,-23.3586))=1\nORDER BY t_min asc" := rfl

/-! Helper lemmas. -/

theorem string_data_append (s t : String) : (s ++ t).data = s.data ++ t.data := by
  cases s; cases t; rfl

theorem stripQuoted_append_noquote (A : List Char) (hA : ∀ c ∈ A, c ≠ '\'')
    (B : List Char) : stripQuoted (A ++ B) false = A ++ stripQuoted B false := by
  induction A with
  | nil => rfl
  | cons c A ih =>
    have hc : c ≠ '\'' := hA c (List.mem_cons_self c A)
    have ih' := ih (fun x hx => hA x (List.mem_cons_of_mem c hx))
    simp [stripQuoted, hc, ih']

theorem stripQuoted_inq (L : List Char) (hL : ∀ c ∈ L, c ≠ '\'')
    (R : List Char) : stripQuoted (L ++ R) true = stripQuoted R true := by
  induction L with
  | nil => rfl
  | cons c L ih =>
    have hc : c ≠ '\'' := hL c (List.mem_cons_self c L)
    have ih' := ih (fun x hx => hL x (List.mem_cons_of_mem c hx))
    simp [stripQuoted, hc, ih']

theorem byIdentifier_data (id : String) :
    (byIdentifier id).data =
      "SELECT *\nFROM ivoa.ObsCore\nWHERE dp_id = ".data ++
        '\'' :: (id.data ++ ['\'']) := by
  cases id
  rfl

theorem byIdentifier_stripQuoted (id : String) (hq : ∀ c ∈ id.data, c ≠ '\'') :
    stripQuoted (byIdentifier id).data false =
      "SELECT *\nFROM ivoa.ObsCore\nWHERE dp_id = ".data := by
  rw [byIdentifier_data]
  rw [stripQuoted_append_noquote _ (by decide)]
  have h1 : stripQuoted ('\'' :: (id.data ++ ['\''])) false =
      stripQuoted (id.data ++ ['\'']) true := by
    simp [stripQuoted]
  rw [h1, stripQuoted_inq _ hq]
  simp [stripQuoted]

/-! Claim C1. -/

/-- C1 counterexample: the claim quantifies over every non-empty
identifier; at the non-empty identifier `' WHERE dp_id = 'x` the naive
interpolation of cell-5 breaks out of the quoted literal and the
generated query contains two `WHERE` keywords outside quoted literals,
not exactly one. -/
theorem byIdentifier_where_count_ctrex :
    ("' WHERE dp_id = 'x" : String) ≠ "" ∧
      countOcc whereTok (stripQuoted (byIdentifier "' WHERE dp_id = 'x").data false) ≠ 1 := by
  decide

set_option linter.unusedVariables false in
/-- C1 (amended): for every non-empty identifier containing no
single-quote character, the query built by `byIdentifier` contains
exactly one `WHERE` keyword outside quoted literals, that clause
constrains the column `dp_id`, and the identifier value appears embedded
in the query string unchanged. -/
theorem byIdentifier_single_where_clause (id : String) (hne : id ≠ "")
    (hq : ∀ c ∈ id.data, c ≠ '\'') :
    countOcc whereTok (stripQuoted (byIdentifier id).data false) = 1 ∧
      Occurs "WHERE dp_id = '".data (byIdentifier id).data ∧
      Occurs id.data (byIdentifier id).data := by
  refine ⟨?_, ?_, ?_⟩
  · rw [byIdentifier_stripQuoted id hq]
    decide
  · refine ⟨"SELECT *\nFROM ivoa.ObsCore\n".data, id.data ++ ['\''], ?_⟩
    rw [byIdentifier_data]
    rfl
  · refine ⟨"SELECT *\nFROM ivoa.ObsCore\nWHERE dp_id = '".data, ['\''], ?_⟩
    rw [byIdentifier_data]
    rfl

/-- C1 witness: the amended theorem applied to the concrete identifier
of cell-5. -/
theorem byIdentifier_single_where_clause_witness :
    countOcc whereTok (stripQuoted (byIdentifier "ADP.2013-12-10T16:12:17.697").data false) = 1 ∧
      Occurs "WHERE dp_id = '".data (byIdentifier "ADP.2013-12-10T16:12:17.697").data ∧
      Occurs "ADP.2013-12-10T16:12:17.697".data (byIdentifier "ADP.2013-12-10T16:12:17.697").data :=
  byIdentifier_single_where_clause "ADP.2013-12-10T16:12:17.697" (by decide) (by decide)

/-! Claim C2. -/

/-- C2 counterexample: the string generated by cell-5 for the identifier
`ADP.2013-12-10T16:12:17.697` separates the `SELECT`, `FROM` and `WHERE`
lines with newlines, so it is not equal, whitespace included, to the
single-line, space-separated string of the claim. -/
theorem byIdentifier_scenario_ctrex :
    byIdentifier "ADP.2013-12-10T16:12:17.697" ≠
      "SELECT * FROM ivoa.ObsCore WHERE dp_id = 'ADP.2013-12-10T16:12:17.697'" := by
  decide

/-- C2 (amended): `byIdentifier` applied to `ADP.2013-12-10T16:12:17.697`
yields exactly the query of cell-5, whose three clauses are separated by
newline characters rather than spaces. -/
theorem byIdentifier_scenario :
    byIdentifier "ADP.2013-12-10T16:12:17.697" =
      "SELECT *\nFROM ivoa.ObsCore\nWHERE dp_id = 'ADP.2013-12-10T16:12:17.697'" := rfl

/-! Claim C4. -/

/-- C4: the cone search of cell-17 at ra 185.583, dec 13.093 and radius
0.0417 degrees generates exactly the query whose `WHERE` clause is
`intersects(s_region, circle('', 185.583000, 13.093000, 0.041700))=1`:
`s_region` first, the circle second, and each number rendered with six
fractional digits in the fixed ra, dec, radius order. -/
theorem coneSearch_scenario :
    coneSearch (185.583 : ℚ) (13.093 : ℚ) (0.0417 : ℚ) =
      "SELECT *\nFROM ivoa.ObsCore\nWHERE intersects(s_region, circle('', 185.583000, 13.093000, 0.041700))=1\n" := by
  have h1 : (185.583 : ℚ) = mkRat 185583 1000 := by rw [Rat.mkRat_eq_div]; norm_num
  have h2 : (13.093 : ℚ) = mkRat 13093 1000 := by rw [Rat.mkRat_eq_div]; norm_num
  have h3 : (0.0417 : ℚ) = mkRat 417 10000 := by rw [Rat.mkRat_eq_div]; norm_num
  rw [h1, h2, h3]
  rfl

/-! Claim C6. -/

/-- C6: building the cone-search query at ra 185.5, dec 10.0 and radius
0.5, then parsing the three numeric literals back out of the generated
string, recovers exactly the three input numbers. -/
theorem coneSearch_roundtrip :
    coneParams (coneSearch (185.5 : ℚ) (10.0 : ℚ) (0.5 : ℚ)) =
      some ((185.5 : ℚ), (10.0 : ℚ), (0.5 : ℚ)) := by
  have h1 : (185.5 : ℚ) = mkRat 371 2 := by rw [Rat.mkRat_eq_div]; norm_num
  have h2 : (10.0 : ℚ) = mkRat 10 1 := by rw [Rat.mkRat_eq_div]; norm_num
  have h3 : (0.5 : ℚ) = mkRat 1 2 := by rw [Rat.mkRat_eq_div]; norm_num
  rw [h1, h2, h3]
  rfl

/-! Claim C7. -/

/-- C7: the only queries of the notebook that constrain the spectral
bound columns are the spatial join of cell-31, whose `em_min`/`em_max`
constraints carry the meter values 1.265E-6 and 1.66E-6 and which
contains no rescaling factor, and the wavelength query of cell-34, whose
`*1E9` rescaling of `em_min`/`em_max` appears in the SELECT list while
the part after `WHERE` mentions neither the spectral bound columns nor
the factor `1E9`. -/
theorem spectral_constraints_in_meters :
    occursIn "AND em_min < 1.265E-6 AND em_max > 1.265E-6".data spatialJoinQuery.data = true ∧
      occursIn "AND em_min < 1.66E-6 AND em_max > 1.66E-6".data spatialJoinQuery.data = true ∧
      occursIn "1E9".data spatialJoinQuery.data = false ∧
      occursIn "em_min*1E9 min_wavel_nm, em_max*1E9 max_wavel_nm".data wavelengthQuery.data = true ∧
      dropAfter "\nFROM ivoa.ObsCore\nWHERE ".data wavelengthQuery.data =
        some "target_name = 'a370'\nand em_res_power < 3000".data ∧
      occursIn "em_min".data "target_name = 'a370'\nand em_res_power < 3000".data = false ∧
      occursIn "em_max".data "target_name = 'a370'\nand em_res_power < 3000".data = false ∧
      occursIn "1E9".data "target_name = 'a370'\nand em_res_power < 3000".data = false := by
  set_option maxRecDepth 16384 in decide

/-! Claim C8. -/

/-- C8: for every remote outcome the client issues exactly one request
(no retry of any kind); a zero-row success is returned as a valid empty
result table and not as an error, every successful row list is passed
through unchanged, and each error outcome propagates unchanged to the
caller as the corresponding typed result. -/
theorem tapSearch_no_retry (Row : Type) (o : RemoteOutcome Row) (m : String)
    (rows : List Row) :
    (tapSearch o).1 = 1 ∧
      tapSearch (RemoteOutcome.success ([] : List Row)) =
        (1, SearchOutcome.resultTable ([] : List Row)) ∧
      tapSearch (RemoteOutcome.success rows) = (1, SearchOutcome.resultTable rows) ∧
      tapSearch (RemoteOutcome.syntaxError m : RemoteOutcome Row) =
        (1, SearchOutcome.querySyntaxError m) ∧
      tapSearch (RemoteOutcome.transportFailure m : RemoteOutcome Row) =
        (1, SearchOutcome.transportError m) := by
  refine ⟨?_, rfl, rfl, rfl, rfl⟩
  cases o <;> rfl

/-- C8 witness: the pass-through theorem at a concrete outcome type. -/
theorem tapSearch_no_retry_witness :
    (tapSearch (RemoteOutcome.success ([] : List Nat))).1 = 1 ∧
      tapSearch (RemoteOutcome.success ([] : List Nat)) =
        (1, SearchOutcome.resultTable ([] : List Nat)) ∧
      tapSearch (RemoteOutcome.success ([] : List Nat)) =
        (1, SearchOutcome.resultTable ([] : List Nat)) ∧
      tapSearch (RemoteOutcome.syntaxError "err" : RemoteOutcome Nat) =
        (1, SearchOutcome.querySyntaxError "err") ∧
      tapSearch (RemoteOutcome.transportFailure "err" : RemoteOutcome Nat) =
        (1, SearchOutcome.transportError "err") :=
  tapSearch_no_retry Nat (RemoteOutcome.success []) "err" []

/-! Claim C9. -/

theorem list_append_cancel_left {α : Type} (p a b : List α) (h : p ++ a = p ++ b) :
    a = b := by
  induction p with
  | nil => exact h
  | cons c p ih =>
    simp only [List.cons_append, List.cons.injEq] at h
    exact ih h.2

theorem string_append_left_cancel (p a b : String) (h : p ++ a = p ++ b) : a = b := by
  cases p with
  | mk lp =>
    cases a with
    | mk la =>
      cases b with
      | mk lb =>
        have h' : lp ++ la = lp ++ lb := congrArg String.data h
        exact congrArg String.mk (list_append_cancel_left lp la lb h')

/-- C9: under the invariant documented by cell-4 — every row's VO
identifier is the constant prefix `ivo://eso.org/ID?` prepended to its
ESO identifier — the `dp_id` query of cell-5 and its commented
`obs_publisher_did` equivalent select exactly the same rows, for every
identifier. -/
theorem byIdentifier_publisherDid_equiv (rows : List ObsCoreRow) (id : String)
    (hiv : ∀ r ∈ rows, r.obs_publisher_did = "ivo://eso.org/ID?" ++ r.dp_id) :
    runByIdentifier rows id = runByPublisherDid rows id := by
  unfold runByIdentifier runByPublisherDid
  apply List.filter_congr
  intro r hr
  rw [hiv r hr]
  rcases eq_or_ne r.dp_id id with h | h
  · rw [h]
    simp
  · have h2 : ("ivo://eso.org/ID?" ++ r.dp_id) ≠ ("ivo://eso.org/ID?" ++ id) :=
      fun hc => h (string_append_left_cancel _ _ _ hc)
    simp [h, h2]

/-- C9 witness: the equivalence applied to a one-row table satisfying the
documented ivorn invariant. -/
theorem byIdentifier_publisherDid_equiv_witness :
    runByIdentifier
        [⟨"ADP.2013-12-10T16:12:17.697", "ivo://eso.org/ID?ADP.2013-12-10T16:12:17.697"⟩]
        "ADP.2013-12-10T16:12:17.697" =
      runByPublisherDid
        [⟨"ADP.2013-12-10T16:12:17.697", "ivo://eso.org/ID?ADP.2013-12-10T16:12:17.697"⟩]
        "ADP.2013-12-10T16:12:17.697" :=
  byIdentifier_publisherDid_equiv _ _ (by decide)

/-! Claim C10. -/

/-- C10: the `%f` interpolation of cell-17 renders exactly six
fractional digits, so the distinct radii 0.00000004 and 0.00000005
generate character-identical cone-search queries, and the radius literal
parsed back out of the query is 0, equal to neither input. -/
theorem coneSearch_fmt_collision :
    (0.00000004 : ℚ) ≠ (0.00000005 : ℚ) ∧
      coneSearch (185.5 : ℚ) (10.0 : ℚ) (0.00000004 : ℚ) =
        coneSearch (185.5 : ℚ) (10.0 : ℚ) (0.00000005 : ℚ) ∧
      coneParams (coneSearch (185.5 : ℚ) (10.0 : ℚ) (0.00000004 : ℚ)) =
        some ((185.5 : ℚ), (10.0 : ℚ), (0 : ℚ)) ∧
      (0 : ℚ) ≠ (0.00000004 : ℚ) ∧ (0 : ℚ) ≠ (0.00000005 : ℚ) := by
  have h1 : (185.5 : ℚ) = mkRat 371 2 := by rw [Rat.mkRat_eq_div]; norm_num
  have h2 : (10.0 : ℚ) = mkRat 10 1 := by rw [Rat.mkRat_eq_div]; norm_num
  have h3 : (0.00000004 : ℚ) = mkRat 1 25000000 := by rw [Rat.mkRat_eq_div]; norm_num
  have h4 : (0.00000005 : ℚ) = mkRat 1 20000000 := by rw [Rat.mkRat_eq_div]; norm_num
  refine ⟨by norm_num, ?_, ?_, by norm_num, by norm_num⟩
  · rw [h1, h2, h3, h4]
    rfl
  · rw [h1, h2, h3]
    rfl

/-! Scanner lemmas for the operand-order claims. -/

theorem splitArg_plain (A : List Char) (hA : ∀ c ∈ A, plainChar c)
    (rest : List Char) (d : Nat) :
    splitArg (A ++ rest) d = (splitArg rest d).map (fun p => (A ++ p.1, p.2)) := by
  induction A with
  | nil =>
    cases h : splitArg rest d with
    | none => simp [h]
    | some p => simp [h]
  | cons c A ih =>
    obtain ⟨h1, h2, h3⟩ := hA c (List.mem_cons_self c A)
    have ih' := ih (fun x hx => hA x (List.mem_cons_of_mem c hx))
    have e : splitArg (c :: (A ++ rest)) d =
        (splitArg (A ++ rest) d).map (fun p => (c :: p.1, p.2)) := by
      simp [splitArg, h1, h2, h3]
    rw [List.cons_append, e, ih']
    cases h : splitArg rest d with
    | none => simp
    | some p => simp

theorem splitArg_inner (I : List Char) (hI : ∀ c ∈ I, c ≠ '(' ∧ c ≠ ')')
    (rest : List Char) (d : Nat) (hd : d ≠ 0) :
    splitArg (I ++ rest) d = (splitArg rest d).map (fun p => (I ++ p.1, p.2)) := by
  induction I with
  | nil =>
    cases h : splitArg rest d with
    | none => simp [h]
    | some p => simp [h]
  | cons c I ih =>
    obtain ⟨h1, h2⟩ := hI c (List.mem_cons_self c I)
    have ih' := ih (fun x hx => hI x (List.mem_cons_of_mem c hx))
    have e : splitArg (c :: (I ++ rest)) d =
        (splitArg (I ++ rest) d).map (fun p => (c :: p.1, p.2)) := by
      simp [splitArg, h1, h2, hd]
    rw [List.cons_append, e, ih']
    cases h : splitArg rest d with
    | none => simp
    | some p => simp

theorem splitArg_call (name I tail : List Char) (hname : ∀ c ∈ name, plainChar c)
    (hI : ∀ c ∈ I, c ≠ '(' ∧ c ≠ ')') :
    splitArg (name ++ '(' :: (I ++ ')' :: ',' :: tail)) 0 =
      some (name ++ '(' :: (I ++ [')']), tail) := by
  rw [splitArg_plain name hname]
  have e1 : splitArg ('(' :: (I ++ ')' :: ',' :: tail)) 0 =
      (splitArg (I ++ ')' :: ',' :: tail) 1).map (fun p => ('(' :: p.1, p.2)) := by
    simp [splitArg]
  rw [e1, splitArg_inner I hI _ 1 (by omega)]
  have e2 : splitArg (')' :: ',' :: tail) 1 = some ([')'], tail) := by
    simp [splitArg]
  rw [e2]
  simp

theorem splitArg_plain_comma (A : List Char) (hA : ∀ c ∈ A, plainChar c)
    (tail : List Char) :
    splitArg (A ++ ',' :: tail) 0 = some (A, tail) := by
  rw [splitArg_plain A hA]
  simp [splitArg]

theorem takeArg_plain_append (A : List Char) (hA : ∀ c ∈ A, plainChar c)
    (rest : List Char) :
    takeArg (A ++ rest) 0 = (takeArg rest 0).map (fun l => A ++ l) := by
  induction A with
  | nil =>
    cases h : takeArg rest 0 with
    | none => simp [h]
    | some l => simp [h]
  | cons c A ih =>
    obtain ⟨h1, h2, h3⟩ := hA c (List.mem_cons_self c A)
    have ih' := ih (fun x hx => hA x (List.mem_cons_of_mem c hx))
    have e : takeArg (c :: (A ++ rest)) 0 =
        (takeArg (A ++ rest) 0).map (fun l => c :: l) := by
      simp [takeArg, h1, h2, h3]
    rw [List.cons_append, e, ih']
    cases h : takeArg rest 0 with
    | none => simp
    | some l => simp

theorem takeArg_inner (I : List Char) (hI : ∀ c ∈ I, c ≠ '(' ∧ c ≠ ')')
    (rest : List Char) (d : Nat) (hd : d ≠ 0) :
    takeArg (I ++ rest) d = (takeArg rest d).map (fun l => I ++ l) := by
  induction I with
  | nil =>
    cases h : takeArg rest d with
    | none => simp [h]
    | some l => simp [h]
  | cons c I ih =>
    obtain ⟨h1, h2⟩ := hI c (List.mem_cons_self c I)
    have ih' := ih (fun x hx => hI x (List.mem_cons_of_mem c hx))
    have e : takeArg (c :: (I ++ rest)) d =
        (takeArg (I ++ rest) d).map (fun l => c :: l) := by
      simp [takeArg, h1, h2, hd]
    rw [List.cons_append, e, ih']
    cases h : takeArg rest d with
    | none => simp
    | some l => simp

theorem takeArg_plain (A : List Char) (hA : ∀ c ∈ A, plainChar c)
    (tail : List Char) :
    takeArg (A ++ ')' :: tail) 0 = some A := by
  rw [takeArg_plain_append A hA]
  simp [takeArg]

theorem takeArg_call (name I tail : List Char) (hname : ∀ c ∈ name, plainChar c)
    (hI : ∀ c ∈ I, c ≠ '(' ∧ c ≠ ')') :
    takeArg (name ++ '(' :: (I ++ ')' :: ')' :: tail)) 0 =
      some (name ++ '(' :: (I ++ [')'])) := by
  rw [takeArg_plain_append name hname]
  have e1 : takeArg ('(' :: (I ++ ')' :: ')' :: tail)) 0 =
      (takeArg (I ++ ')' :: ')' :: tail) 1).map (fun l => '(' :: l) := by
    simp [takeArg]
  rw [e1, takeArg_inner I hI _ 1 (by omega)]
  have e2 : takeArg (')' :: ')' :: tail) 1 = some [')'] := by
    simp [takeArg]
  rw [e2]
  simp

theorem splitCommas_ne_nil (l : List Char) : splitCommas l ≠ [] := by
  cases l with
  | nil => simp [splitCommas]
  | cons c rest =>
    by_cases h : c = ','
    · simp [splitCommas, h]
    · simp only [splitCommas, if_neg h]
      cases hs : splitCommas rest with
      | nil => simp
      | cons f fs => simp

theorem splitCommas_nocomma (A : List Char) (hA : ∀ c ∈ A, c ≠ ',') :
    splitCommas A = [A] := by
  induction A with
  | nil => rfl
  | cons c A ih =>
    have hc : c ≠ ',' := hA c (List.mem_cons_self c A)
    have ih' := ih (fun x hx => hA x (List.mem_cons_of_mem c hx))
    simp [splitCommas, hc, ih']

theorem splitCommas_append (A : List Char) (hA : ∀ c ∈ A, c ≠ ',')
    (tail : List Char) :
    splitCommas (A ++ ',' :: tail) = A :: splitCommas tail := by
  induction A with
  | nil => simp [splitCommas]
  | cons c A ih =>
    have hc : c ≠ ',' := hA c (List.mem_cons_self c A)
    have ih' := ih (fun x hx => hA x (List.mem_cons_of_mem c hx))
    simp [splitCommas, hc, ih']

theorem trimSp_nospace (A : List Char) (hA : ∀ c ∈ A, c ≠ ' ') :
    trimSp A = A := by
  cases A with
  | nil => rfl
  | cons c A =>
    have hc : c ≠ ' ' := hA c (List.mem_cons_self c A)
    simp [trimSp, List.dropWhile, hc]

theorem trimSp_space (A : List Char) : trimSp (' ' :: A) = trimSp A := by
  simp [trimSp, List.dropWhile]

theorem takeWhile_all_append (p : Char → Bool) (A : List Char)
    (hA : ∀ c ∈ A, p c = true) (c : Char) (hc : p c = false) (rest : List Char) :
    (A ++ c :: rest).takeWhile p = A ∧ (A ++ c :: rest).dropWhile p = c :: rest := by
  induction A with
  | nil => simp [List.takeWhile, List.dropWhile, hc]
  | cons a A ih =>
    have ha : p a = true := hA a (List.mem_cons_self a A)
    have ih' := ih (fun x hx => hA x (List.mem_cons_of_mem a hx))
    simp [List.takeWhile, List.dropWhile, ha, ih'.1, ih'.2]

theorem all_chars {P : Char → Prop} [DecidablePred P] (A : List Char)
    (h : A.all (fun c => decide (P c)) = true) : ∀ c ∈ A, P c := by
  intro c hc
  exact of_decide_eq_true (List.all_eq_true.mp h c hc)

theorem forall_mem_append {P : Char → Prop} {A B : List Char}
    (hA : ∀ c ∈ A, P c) (hB : ∀ c ∈ B, P c) : ∀ c ∈ A ++ B, P c := by
  intro c hc
  rcases List.mem_append.mp hc with h | h
  exacts [hA c h, hB c h]

theorem numAtom_paren {s : String} (h : numAtom s) :
    ∀ c ∈ s.data, c ≠ '(' ∧ c ≠ ')' :=
  fun c hc => ⟨(h.2 c hc).1, (h.2 c hc).2.1⟩

theorem numAtom_plain {s : String} (h : numAtom s) :
    ∀ c ∈ s.data, plainChar c :=
  fun c hc => ⟨(h.2 c hc).1, (h.2 c hc).2.1, (h.2 c hc).2.2.1⟩

theorem numAtom_nocomma {s : String} (h : numAtom s) :
    ∀ c ∈ s.data, c ≠ ',' :=
  fun c hc => (h.2 c hc).2.2.1

theorem numAtom_nospace {s : String} (h : numAtom s) :
    ∀ c ∈ s.data, c ≠ ' ' :=
  fun c hc => (h.2 c hc).2.2.2.1

theorem plainFrame_paren {s : String} (h : plainFrame s) :
    ∀ c ∈ s.data, c ≠ '(' ∧ c ≠ ')' :=
  fun c hc => ⟨(h c hc).1, (h c hc).2.1⟩

theorem polyCoords_chars (vs : List (String × String))
    (h : ∀ v ∈ vs, numAtom v.1 ∧ numAtom v.2) :
    ∀ c ∈ (polyCoords vs).data, c ≠ '(' ∧ c ≠ ')' := by
  induction vs with
  | nil => intro c hc; simp [polyCoords] at hc
  | cons v rest ih =>
    obtain ⟨hv1, hv2⟩ := h v (List.mem_cons_self v rest)
    cases rest with
    | nil =>
      have hd : (polyCoords [v]).data = v.1.data ++ (", ".data ++ v.2.data) := by
        simp [polyCoords, string_data_append]
      rw [hd]
      exact forall_mem_append (numAtom_paren hv1)
        (forall_mem_append (all_chars _ (by decide)) (numAtom_paren hv2))
    | cons w rest' =>
      have ih' := ih (fun x hx => h x (List.mem_cons_of_mem v hx))
      have hd : (polyCoords (v :: w :: rest')).data =
          v.1.data ++ (", ".data ++ (v.2.data ++ (", ".data ++ (polyCoords (w :: rest')).data))) := by
        simp [polyCoords, string_data_append, List.append_assoc]
      rw [hd]
      exact forall_mem_append (numAtom_paren hv1)
        (forall_mem_append (all_chars _ (by decide))
          (forall_mem_append (numAtom_paren hv2)
            (forall_mem_append (all_chars _ (by decide)) ih')))

theorem polyBody_chars (vs : List (String × String))
    (h : ∀ v ∈ vs, numAtom v.1 ∧ numAtom v.2) :
    ∀ c ∈ (polyBody vs).data, c ≠ '(' ∧ c ≠ ')' := by
  induction vs with
  | nil => intro c hc; simp [polyBody] at hc
  | cons v rest ih =>
    obtain ⟨hv1, hv2⟩ := h v (List.mem_cons_self v rest)
    cases rest with
    | nil =>
      have hd : (polyBody [v]).data = v.1.data ++ (",".data ++ v.2.data) := by
        simp [polyBody, string_data_append]
      rw [hd]
      exact forall_mem_append (numAtom_paren hv1)
        (forall_mem_append (all_chars _ (by decide)) (numAtom_paren hv2))
    | cons w rest' =>
      have ih' := ih (fun x hx => h x (List.mem_cons_of_mem v hx))
      have hd : (polyBody (v :: w :: rest')).data =
          v.1.data ++ (",".data ++ (v.2.data ++ (", ".data ++ (polyBody (w :: rest')).data))) := by
        simp [polyBody, string_data_append, List.append_assoc]
      rw [hd]
      exact forall_mem_append (numAtom_paren hv1)
        (forall_mem_append (all_chars _ (by decide))
          (forall_mem_append (numAtom_paren hv2)
            (forall_mem_append (all_chars _ (by decide)) ih')))

theorem polyBody_splitCommas (vs : List (String × String))
    (h : ∀ v ∈ vs, numAtom v.1 ∧ numAtom v.2) (hne : vs ≠ []) :
    (splitCommas (polyBody vs).data).map trimSp =
      vs.flatMap (fun v => [v.1.data, v.2.data]) := by
  induction vs with
  | nil => exact absurd rfl hne
  | cons v rest ih =>
    obtain ⟨hv1, hv2⟩ := h v (List.mem_cons_self v rest)
    cases rest with
    | nil =>
      have hd : (polyBody [v]).data = v.1.data ++ ',' :: v.2.data := by
        simp [polyBody, string_data_append]
      rw [hd, splitCommas_append v.1.data (numAtom_nocomma hv1),
        splitCommas_nocomma v.2.data (numAtom_nocomma hv2)]
      simp [trimSp_nospace v.1.data (numAtom_nospace hv1),
        trimSp_nospace v.2.data (numAtom_nospace hv2)]
    | cons w rest' =>
      have ih' := ih (fun x hx => h x (List.mem_cons_of_mem v hx)) (by simp)
      have hd : (polyBody (v :: w :: rest')).data =
          v.1.data ++ ',' :: (v.2.data ++ ',' :: (' ' :: (polyBody (w :: rest')).data)) := by
        simp [polyBody, string_data_append, List.append_assoc]
      rw [hd, splitCommas_append v.1.data (numAtom_nocomma hv1),
        splitCommas_append v.2.data (numAtom_nocomma hv2)]
      cases hsc : splitCommas (polyBody (w :: rest')).data with
      | nil => exact absurd hsc (splitCommas_ne_nil _)
      | cons f fs =>
        have e : splitCommas (' ' :: (polyBody (w :: rest')).data) = (' ' :: f) :: fs := by
          simp [splitCommas, hsc]
        rw [e]
        rw [hsc] at ih'
        simp only [List.map_cons] at ih' ⊢
        rw [trimSp_nospace v.1.data (numAtom_nospace hv1),
          trimSp_nospace v.2.data (numAtom_nospace hv2), trimSp_space]
        simp only [List.flatMap_cons, List.cons_append, List.nil_append]
        rw [List.cons_eq_cons, List.cons_eq_cons]
        refine ⟨rfl, rfl, ?_⟩
        simpa using ih'

theorem containsArgs_assemble (q : String) (name I T2 : List Char)
    (hdrop : dropAfter "CONTAINS(".data q.data =
      some (name ++ '(' :: (I ++ ')' :: ',' :: (" s_region".data ++ ')' :: T2))))
    (hname : ∀ c ∈ name, plainChar c) (hI : ∀ c ∈ I, c ≠ '(' ∧ c ≠ ')') :
    containsArgs q = some (name ++ '(' :: (I ++ [')']), "s_region".data) := by
  have hsplit := splitArg_call name I (" s_region".data ++ ')' :: T2) hname hI
  have htake := takeArg_plain " s_region".data (by decide) T2
  simp only [containsArgs, hdrop, hsplit, htake]
  rfl

theorem containsArgs_containsPoint (ra dec : String) (fs : List String)
    (h1 : numAtom ra) (h2 : numAtom dec) :
    containsArgs (containsPoint ra dec fs) =
      some ((renderShape (SpatialShape.point ra dec)).data, "s_region".data) := by
  have hI : ∀ c ∈ ("'', ".data ++ (ra.data ++ (", ".data ++ dec.data))),
      c ≠ '(' ∧ c ≠ ')' :=
    forall_mem_append (all_chars _ (by decide))
      (forall_mem_append (numAtom_paren h1)
        (forall_mem_append (all_chars _ (by decide)) (numAtom_paren h2)))
  have hdata : (containsPoint ra dec fs).data =
      "SELECT t_min, abmaglim, dataproduct_type as type, dp_id, obs_release_date\nFROM ivoa.ObsCore\nWHERE ".data ++
        ("CONTAINS(".data ++
          ("point".data ++ '(' ::
            (("'', ".data ++ (ra.data ++ (", ".data ++ dec.data))) ++ ')' :: ',' ::
              (" s_region".data ++ ')' ::
                ("=1".data ++ ((joinFilters fs).data ++ "\nORDER BY t_min asc".data)))))) := by
    simp only [containsPoint, renderShape, string_data_append, List.append_assoc]
    rfl
  have hdrop : dropAfter "CONTAINS(".data (containsPoint ra dec fs).data =
      some ("point".data ++ '(' ::
        (("'', ".data ++ (ra.data ++ (", ".data ++ dec.data))) ++ ')' :: ',' ::
          (" s_region".data ++ ')' ::
            ("=1".data ++ ((joinFilters fs).data ++ "\nORDER BY t_min asc".data))))) := by
    rw [hdata]
    simp [dropAfter]
  have hmain := containsArgs_assemble (containsPoint ra dec fs) "point".data
    ("'', ".data ++ (ra.data ++ (", ".data ++ dec.data)))
    ("=1".data ++ ((joinFilters fs).data ++ "\nORDER BY t_min asc".data))
    hdrop (by decide) hI
  rw [hmain]
  have e : "point".data ++ '(' ::
      (("'', ".data ++ (ra.data ++ (", ".data ++ dec.data))) ++ [')']) =
      (renderShape (SpatialShape.point ra dec)).data := by
    simp only [renderShape, string_data_append, List.append_assoc]
    rfl
  rw [e]

theorem containsArgs_containsRegion (shape : SpatialShape) (fs : List String)
    (h : shapeAtoms shape) :
    containsArgs (containsRegion shape fs) =
      some ((renderShape shape).data, "s_region".data) := by
  cases shape with
  | point ra dec =>
    obtain ⟨h1, h2⟩ := h
    have hI : ∀ c ∈ ("'', ".data ++ (ra.data ++ (", ".data ++ dec.data))),
        c ≠ '(' ∧ c ≠ ')' :=
      forall_mem_append (all_chars _ (by decide))
        (forall_mem_append (numAtom_paren h1)
          (forall_mem_append (all_chars _ (by decide)) (numAtom_paren h2)))
    have hdata : (containsRegion (SpatialShape.point ra dec) fs).data =
        "SELECT t_min, s_fov, dataproduct_type as type, dp_id, obs_release_date\nFROM ivoa.ObsCore\nWHERE ".data ++
          ("CONTAINS(".data ++
            ("point".data ++ '(' ::
              (("'', ".data ++ (ra.data ++ (", ".data ++ dec.data))) ++ ')' :: ',' ::
                (" s_region".data ++ ')' ::
                  ("=1".data ++ ((joinFilters fs).data ++ "\nORDER BY t_min asc".data)))))) := by
      simp only [containsRegion, renderShape, string_data_append, List.append_assoc]
      rfl
    have hdrop : dropAfter "CONTAINS(".data (containsRegion (SpatialShape.point ra dec) fs).data =
        some ("point".data ++ '(' ::
          (("'', ".data ++ (ra.data ++ (", ".data ++ dec.data))) ++ ')' :: ',' ::
            (" s_region".data ++ ')' ::
              ("=1".data ++ ((joinFilters fs).data ++ "\nORDER BY t_min asc".data))))) := by
      rw [hdata]
      simp [dropAfter]
    have hmain := containsArgs_assemble _ "point".data
      ("'', ".data ++ (ra.data ++ (", ".data ++ dec.data)))
      ("=1".data ++ ((joinFilters fs).data ++ "\nORDER BY t_min asc".data))
      hdrop (by decide) hI
    rw [hmain]
    have e : "point".data ++ '(' ::
        (("'', ".data ++ (ra.data ++ (", ".data ++ dec.data))) ++ [')']) =
        (renderShape (SpatialShape.point ra dec)).data := by
      simp only [renderShape, string_data_append, List.append_assoc]
      rfl
    rw [e]
  | circle ra dec radius =>
    obtain ⟨h1, h2, h3⟩ := h
    have hI : ∀ c ∈ ("'', ".data ++ (ra.data ++ (", ".data ++ (dec.data ++ (", ".data ++ radius.data))))),
        c ≠ '(' ∧ c ≠ ')' :=
      forall_mem_append (all_chars _ (by decide))
        (forall_mem_append (numAtom_paren h1)
          (forall_mem_append (all_chars _ (by decide))
            (forall_mem_append (numAtom_paren h2)
              (forall_mem_append (all_chars _ (by decide)) (numAtom_paren h3)))))
    have hdata : (containsRegion (SpatialShape.circle ra dec radius) fs).data =
        "SELECT t_min, s_fov, dataproduct_type as type, dp_id, obs_release_date\nFROM ivoa.ObsCore\nWHERE ".data ++
          ("CONTAINS(".data ++
            ("CIRCLE".data ++ '(' ::
              (("'', ".data ++ (ra.data ++ (", ".data ++ (dec.data ++ (", ".data ++ radius.data))))) ++ ')' :: ',' ::
                (" s_region".data ++ ')' ::
                  ("=1".data ++ ((joinFilters fs).data ++ "\nORDER BY t_min asc".data)))))) := by
      simp only [containsRegion, renderShape, string_data_append, List.append_assoc]
      rfl
    have hdrop : dropAfter "CONTAINS(".data (containsRegion (SpatialShape.circle ra dec radius) fs).data =
        some ("CIRCLE".data ++ '(' ::
          (("'', ".data ++ (ra.data ++ (", ".data ++ (dec.data ++ (", ".data ++ radius.data))))) ++ ')' :: ',' ::
            (" s_region".data ++ ')' ::
              ("=1".data ++ ((joinFilters fs).data ++ "\nORDER BY t_min asc".data))))) := by
      rw [hdata]
      simp [dropAfter]
    have hmain := containsArgs_assemble _ "CIRCLE".data
      ("'', ".data ++ (ra.data ++ (", ".data ++ (dec.data ++ (", ".data ++ radius.data)))))
      ("=1".data ++ ((joinFilters fs).data ++ "\nORDER BY t_min asc".data))
      hdrop (by decide) hI
    rw [hmain]
    have e : "CIRCLE".data ++ '(' ::
        (("'', ".data ++ (ra.data ++ (", ".data ++ (dec.data ++ (", ".data ++ radius.data))))) ++ [')']) =
        (renderShape (SpatialShape.circle ra dec radius)).data := by
      simp only [renderShape, string_data_append, List.append_assoc]
      rfl
    rw [e]
  | polygon frame vertices =>
    obtain ⟨h1, h2, h3⟩ := h
    have hI : ∀ c ∈ ("'".data ++ (frame.data ++ ("', ".data ++ (polyCoords vertices).data))),
        c ≠ '(' ∧ c ≠ ')' :=
      forall_mem_append (all_chars _ (by decide))
        (forall_mem_append (plainFrame_paren h1)
          (forall_mem_append (all_chars _ (by decide)) (polyCoords_chars vertices h3)))
    have hdata : (containsRegion (SpatialShape.polygon frame vertices) fs).data =
        "SELECT t_min, s_fov, dataproduct_type as type, dp_id, obs_release_date\nFROM ivoa.ObsCore\nWHERE ".data ++
          ("CONTAINS(".data ++
            ("POLYGON".data ++ '(' ::
              (("'".data ++ (frame.data ++ ("', ".data ++ (polyCoords vertices).data))) ++ ')' :: ',' ::
                (" s_region".data ++ ')' ::
                  ("=1".data ++ ((joinFilters fs).data ++ "\nORDER BY t_min asc".data)))))) := by
      simp only [containsRegion, renderShape, string_data_append, List.append_assoc]
      rfl
    have hdrop : dropAfter "CONTAINS(".data (containsRegion (SpatialShape.polygon frame vertices) fs).data =
        some ("POLYGON".data ++ '(' ::
          (("'".data ++ (frame.data ++ ("', ".data ++ (polyCoords vertices).data))) ++ ')' :: ',' ::
            (" s_region".data ++ ')' ::
              ("=1".data ++ ((joinFilters fs).data ++ "\nORDER BY t_min asc".data))))) := by
      rw [hdata]
      simp [dropAfter]
    have hmain := containsArgs_assemble _ "POLYGON".data
      ("'".data ++ (frame.data ++ ("', ".data ++ (polyCoords vertices).data)))
      ("=1".data ++ ((joinFilters fs).data ++ "\nORDER BY t_min asc".data))
      hdrop (by decide) hI
    rw [hmain]
    have e : "POLYGON".data ++ '(' ::
        (("'".data ++ (frame.data ++ ("', ".data ++ (polyCoords vertices).data))) ++ [')']) =
        (renderShape (SpatialShape.polygon frame vertices)).data := by
      simp only [renderShape, string_data_append, List.append_assoc]
      rfl
    rw [e]

/-! Claim C3. -/

/-- C3: for every point and every shape with well-formed rendered
coordinates and every filter set, parsing the `CONTAINS` call out of the
queries generated by `containsPoint` and `containsRegion` yields the
user-supplied geometry literal as the first operand and the dataset
footprint column `s_region` as the second operand — never the opposite
order. -/
theorem contains_geometry_first_operand (ra dec : String) (fs1 : List String)
    (shape : SpatialShape) (fs2 : List String)
    (h1 : numAtom ra) (h2 : numAtom dec) (h3 : shapeAtoms shape) :
    containsArgs (containsPoint ra dec fs1) =
      some ((renderShape (SpatialShape.point ra dec)).data, "s_region".data) ∧
      containsArgs (containsRegion shape fs2) =
        some ((renderShape shape).data, "s_region".data) :=
  ⟨containsArgs_containsPoint ra dec fs1 h1 h2,
    containsArgs_containsRegion shape fs2 h3⟩

/-- C3 witness: the operand-order theorem at the concrete coordinates and
filters of cell-23 and cell-26. -/
theorem contains_geometry_first_operand_witness :
    containsArgs (containsPoint "193.815" "0.099819" ["dataproduct_type in ('image', 'cube')"]) =
      some ((renderShape (SpatialShape.point "193.815" "0.099819")).data, "s_region".data) ∧
      containsArgs (containsRegion (SpatialShape.circle "11.888002" "-25.288220" "0.21")
          ["dataproduct_type in ('image', 'cube')"]) =
        some ((renderShape (SpatialShape.circle "11.888002" "-25.288220" "0.21")).data,
          "s_region".data) :=
  contains_geometry_first_operand "193.815" "0.099819" _
    (SpatialShape.circle "11.888002" "-25.288220" "0.21") _
    (by decide) (by decide) (by decide)

/-! Claim C5. -/

/-- C5: for every frame tag and every nonempty vertex list with
well-formed rendered coordinates, parsing the query generated by
`intersectsPolygon` yields `s_region` as the first `INTERSECTS` operand,
the `POLYGON` literal as the second operand carrying the supplied frame
tag unchanged, and a coordinate field list that is exactly the input
vertex coordinates in input order with no closing vertex appended. -/
theorem intersectsPolygon_vertex_order (frame : String) (vs : List (String × String))
    (h1 : plainFrame frame) (h2 : vs ≠ [])
    (h3 : ∀ v ∈ vs, numAtom v.1 ∧ numAtom v.2) :
    intersectsPolyParse (intersectsPolygon frame vs) =
      some ("s_region".data, frame.data, vs.flatMap (fun v => [v.1.data, v.2.data])) := by
  have hpchars := polyBody_chars vs h3
  have hI : ∀ c ∈ ("'".data ++ (frame.data ++ ("', ".data ++ (polyBody vs).data))),
      c ≠ '(' ∧ c ≠ ')' :=
    forall_mem_append (all_chars _ (by decide))
      (forall_mem_append (plainFrame_paren h1)
        (forall_mem_append (all_chars _ (by decide)) hpchars))
  have hdata : (intersectsPolygon frame vs).data =
      "SELECT t_min, snr, abmaglim, dataproduct_type as type, dp_id\nFROM ivoa.ObsCore\nWHERE ".data ++
        ("INTERSECTS(".data ++
          ("s_region".data ++ ',' ::
            (" POLYGON".data ++ '(' ::
              (("'".data ++ (frame.data ++ ("', ".data ++ (polyBody vs).data))) ++ ')' :: ')' ::
                "=1\nORDER BY t_min asc".data)))) := by
    simp only [intersectsPolygon, string_data_append, List.append_assoc]
    rfl
  have hdrop : dropAfter "INTERSECTS(".data (intersectsPolygon frame vs).data =
      some ("s_region".data ++ ',' ::
        (" POLYGON".data ++ '(' ::
          (("'".data ++ (frame.data ++ ("', ".data ++ (polyBody vs).data))) ++ ')' :: ')' ::
            "=1\nORDER BY t_min asc".data))) := by
    rw [hdata]
    simp [dropAfter]
  have hsplit := splitArg_plain_comma "s_region".data (by decide)
    (" POLYGON".data ++ '(' ::
      (("'".data ++ (frame.data ++ ("', ".data ++ (polyBody vs).data))) ++ ')' :: ')' ::
        "=1\nORDER BY t_min asc".data))
  have htake := takeArg_call " POLYGON".data
    ("'".data ++ (frame.data ++ ("', ".data ++ (polyBody vs).data)))
    "=1\nORDER BY t_min asc".data (by decide) hI
  have etrim : trimSp (" POLYGON".data ++ '(' ::
      (("'".data ++ (frame.data ++ ("', ".data ++ (polyBody vs).data))) ++ [')'])) =
      "POLYGON".data ++ '(' ::
        (("'".data ++ (frame.data ++ ("', ".data ++ (polyBody vs).data))) ++ [')']) := by
    have e0 : " POLYGON".data ++ '(' ::
        (("'".data ++ (frame.data ++ ("', ".data ++ (polyBody vs).data))) ++ [')']) =
        ' ' :: ("POLYGON".data ++ '(' ::
          (("'".data ++ (frame.data ++ ("', ".data ++ (polyBody vs).data))) ++ [')'])) := rfl
    rw [e0, trimSp_space]
    simp [trimSp, List.dropWhile]
  have hargs : intersectsArgs (intersectsPolygon frame vs) =
      some ("s_region".data,
        "POLYGON".data ++ '(' ::
          (("'".data ++ (frame.data ++ ("', ".data ++ (polyBody vs).data))) ++ [')'])) := by
    simp only [intersectsArgs, hdrop, hsplit, htake, etrim]
  have eassoc : "POLYGON".data ++ '(' ::
      (("'".data ++ (frame.data ++ ("', ".data ++ (polyBody vs).data))) ++ [')']) =
      "POLYGON".data ++ '(' :: '\'' ::
        (frame.data ++ ('\'' :: ',' :: ' ' :: ((polyBody vs).data ++ [')']))) := by
    simp only [List.append_assoc]
    rfl
  have hfr : ∀ c ∈ frame.data, (fun c => decide (c ≠ '\'')) c = true := by
    intro c hc
    exact decide_eq_true (h1 c hc).2.2.2
  have hscan := takeWhile_all_append (fun c => decide (c ≠ '\'')) frame.data hfr '\''
    (by decide) (',' :: ' ' :: ((polyBody vs).data ++ [')']))
  have hbody : ∀ c ∈ (polyBody vs).data, (fun c => decide (c ≠ ')')) c = true := by
    intro c hc
    exact decide_eq_true (hpchars c hc).2
  have hscan2 := takeWhile_all_append (fun c => decide (c ≠ ')')) (polyBody vs).data hbody ')'
    (by decide) []
  have hpoly : polygonParts ("POLYGON".data ++ '(' ::
      (("'".data ++ (frame.data ++ ("', ".data ++ (polyBody vs).data))) ++ [')'])) =
      some (frame.data, vs.flatMap (fun v => [v.1.data, v.2.data])) := by
    rw [eassoc]
    have hdrop2 : dropAfter "POLYGON('".data ("POLYGON".data ++ '(' :: '\'' ::
        (frame.data ++ ('\'' :: ',' :: ' ' :: ((polyBody vs).data ++ [')'])))) =
        some (frame.data ++ ('\'' :: ',' :: ' ' :: ((polyBody vs).data ++ [')']))) := by
      simp [dropAfter]
    simp only [polygonParts, hdrop2, hscan.1, hscan.2, hscan2.1, hscan2.2]
    rw [polyBody_splitCommas vs h3 h2]
  simp only [intersectsPolyParse, hargs, hpoly]

/-- C5 witness: the vertex-order theorem at the first two vertices of the
GW170817 polygon of cell-29. -/
theorem intersectsPolygon_vertex_order_witness :
    intersectsPolyParse (intersectsPolygon "J2000"
        [("196.8311", "-23.5212"), ("196.7432", "-23.3586")]) =
      some ("s_region".data, "J2000".data,
        [("196.8311", "-23.5212"), ("196.7432", "-23.3586")].flatMap
          (fun v => [v.1.data, v.2.data])) :=
  intersectsPolygon_vertex_order "J2000" [("196.8311", "-23.5212"), ("196.7432", "-23.3586")]
    (by decide) (by decide) (by decide)
